import Mathlib

/-!
Verification development for the jobly repository core: the partial-update
SQL builder (src/helpers/sql.js), the company and job filter query builders
and repository operations (src/models/company.js, src/models/job.js).

The JavaScript code is shallowly embedded: JS objects become association
lists in insertion order, JS values become the inductive type JsVal, thrown
errors become the error side of Except.  Repository operations that execute
a statement against the store are modelled up to the point the parameterized
statement is handed to the query interface: an ok result carries the exact
statement text and bound value list that would be executed, an error result
means the operation failed before any statement reached the store.
-/

deriving instance DecidableEq for Except

namespace Jobly

/-- The JavaScript values that flow through the builders: strings, numbers
(restricted to integers, which covers every value the repository binds),
booleans, null, and NaN (the result of coercing a non-numeric string). -/
inductive JsVal where
  | str (s : String)
  | num (n : Int)
  | bool (b : Bool)
  | null
  | nan
deriving DecidableEq

/-- The two error classes of expressError.js that the modelled code throws. -/
inductive JError where
  | badRequestError (msg : String)
  | notFoundError (msg : String)
deriving DecidableEq

/-- String conversion as performed by a JS template literal. -/
def jsToString : JsVal → String
  | .str s => s
  | .num n => toString n
  | .bool true => "true"
  | .bool false => "false"
  | .null => "null"
  | .nan => "NaN"

/-- JS ToNumber, restricted to the integer-valued cases the repository can
produce; none stands for NaN. -/
def jsToNumOpt : JsVal → Option Int
  | .num n => some n
  | .bool b => some (if b then 1 else 0)
  | .null => some 0
  | .nan => none
  | .str s => if s = "" then some 0 else s.toInt?

/-- The unary plus coercion `+x` used by the filter builders. -/
def jsPlus (v : JsVal) : JsVal :=
  match jsToNumOpt v with
  | some n => .num n
  | none => .nan

/-- JS truthiness of a value. -/
def jsTruthy : JsVal → Bool
  | .str s => s ≠ ""
  | .num n => n ≠ 0
  | .bool b => b
  | .null => false
  | .nan => false

/-- JS `<`: lexicographic between two strings, otherwise numeric after
ToNumber, false when either side is NaN. -/
def jsLt (a b : JsVal) : Bool :=
  match a, b with
  | .str x, .str y => x < y
  | _, _ =>
    match jsToNumOpt a, jsToNumOpt b with
    | some x, some y => x < y
    | _, _ => false

/-- Truthiness of a possibly-absent object property (absence is undefined,
which is falsy). -/
def optTruthy : Option JsVal → Bool
  | some v => jsTruthy v
  | none => false

/-- JS `<` on possibly-absent properties; only reached by the modelled code
when both are present. -/
def optLt : Option JsVal → Option JsVal → Bool
  | some a, some b => jsLt a b
  | _, _ => false

/-- A JS object in insertion order: the iteration order of `for ... in`,
`Object.keys` and `Object.values` for the string keys used here. -/
abbrev Payload := List (String × JsVal)

/-- A field-name to column-name translation object such as jsToSql. -/
abbrev TransMap := List (String × String)

/-- True when the computation succeeded, i.e. no error was thrown before
the returned statement would be handed to the store. -/
def exceptIsOk {α : Type} : Except JError α → Bool
  | .ok _ => true
  | .error _ => false

/-- The filter keys the company builder accepts (its allow-list). -/
def companyFilterKeys : List String := ["nameLike", "minEmployees", "maxEmployees"]

/-- The filter keys the job builder accepts (its allow-list). -/
def jobFilterKeys : List String := ["title", "minSalary", "hasEquity"]

/-! ## src/helpers/sql.js: sqlForPartialUpdate -/

/-- Result shape of sqlForPartialUpdate. -/
structure UpdateSql where
  setCols : String
  values : List JsVal
deriving DecidableEq

/-- The column-name choice on line 34 of src/helpers/sql.js:
`jsToSql[colName] || colName`.  An absent key yields undefined and an
empty-string translation is falsy, so both fall back to colName. -/
def colFor (jsToSql : TransMap) (colName : String) : String :=
  match jsToSql.lookup colName with
  | some c => if c = "" then colName else c
  | none => colName

/-- The fragment list built by `keys.map((colName, idx) => ...)`:
the idx-th fragment is `"column"=$(idx+1)`. -/
def updateCols (dataToUpdate : Payload) (jsToSql : TransMap) : List String :=
  (dataToUpdate.map Prod.fst).enum.map
    (fun p => "\"" ++ colFor jsToSql p.2 ++ "\"=$" ++ toString (p.1 + 1))

/-- sqlForPartialUpdate (src/helpers/sql.js lines 28-41): throws
BadRequestError("No data") on an empty object, otherwise joins the
fragments with ", " and returns the raw values in key order. -/
def sqlForPartialUpdate (dataToUpdate : Payload) (jsToSql : TransMap) :
    Except JError UpdateSql :=
  if dataToUpdate.length = 0 then
    .error (.badRequestError "No data")
  else
    .ok { setCols := String.intercalate ", " (updateCols dataToUpdate jsToSql),
          values := dataToUpdate.map Prod.snd }

/-- The Partial Update Builder as the specification words it, for refinement
comparison with sqlForPartialUpdate: the fragment for a key uses the column
name T[key] whenever the key is in the translation map, the key itself only
when the key is absent.  This is the spec reading of the builder, not the
source. -/
def specColFor (t : TransMap) (colName : String) : String :=
  match t.lookup colName with
  | some c => c
  | none => colName

/-- Spec-worded variant of updateCols, used only to compare against the
source behaviour. -/
def specUpdateCols (dataToUpdate : Payload) (t : TransMap) : List String :=
  (dataToUpdate.map Prod.fst).enum.map
    (fun p => "\"" ++ specColFor t p.2 ++ "\"=$" ++ toString (p.1 + 1))

/-- Spec-worded variant of sqlForPartialUpdate (see specColFor). -/
def specSqlForPartialUpdate (dataToUpdate : Payload) (t : TransMap) :
    Except JError UpdateSql :=
  if dataToUpdate.length = 0 then
    .error (.badRequestError "No data")
  else
    .ok { setCols := String.intercalate ", " (specUpdateCols dataToUpdate t),
          values := dataToUpdate.map Prod.snd }

/-! ## Filter query builders -/

/-- What the company/job filter loops accumulate: the WHERE fragments and
the bound values, in push order. -/
structure FilterSql where
  whereQueries : List String
  searchValues : List JsVal
deriving DecidableEq

/-- A parameterized statement as handed to db.query: the SQL text and the
positional value list. -/
structure SqlStatement where
  querySql : String
  searchValues : List JsVal
deriving DecidableEq

/-- One iteration of the company filter loop (src/models/company.js lines
205-221): the fragments and values pushed for one key, or the thrown
BadRequestError for a key outside the allow-list.  idx is the placeholder
counter at this iteration. -/
def companyKeyStep (key : String) (v : JsVal) (idx : Nat) :
    Except JError (List String × List JsVal) :=
  if key = "nameLike" then
    .ok (["name ILIKE $" ++ toString idx], [JsVal.str ("%" ++ jsToString v ++ "%")])
  else if key = "minEmployees" then
    .ok (["num_employees >= $" ++ toString idx], [jsPlus v])
  else if key = "maxEmployees" then
    .ok (["num_employees <= $" ++ toString idx], [jsPlus v])
  else
    .error (.badRequestError ("Bad Key: " ++ key))

/-- The company filter loop: iterates the payload in insertion order,
incrementing idx once per key (every branch of companyKeyStep that does not
throw pushes exactly one fragment). -/
def companiesFilterLoop : Payload → Nat → Except JError FilterSql
  | [], _ => .ok ⟨[], []⟩
  | (key, v) :: rest, idx => do
    let s ← companyKeyStep key v idx
    let r ← companiesFilterLoop rest (idx + 1)
    .ok ⟨s.1 ++ r.whereQueries, s.2 ++ r.searchValues⟩

/-- The fixed SELECT skeleton of Company._sqlForFilterSearchCompanies,
parameterized by the joined WHERE fragment. -/
def companiesSelectSkeleton (w : String) : String :=
  "\n      SELECT \n        handle,\n        name,\n        description,\n        num_employees AS \"numEmployees\",\n        logo_url AS \"logoUrl\"\n      FROM companies\n      WHERE " ++ w ++ "\n      ORDER BY name"

namespace Company

/-- Company._sqlForFilterSearchCompanies (src/models/company.js lines
198-237): throws BadRequestError("No data") on an empty payload, otherwise
runs the loop starting at placeholder 1 and wraps the joined fragments in
the SELECT skeleton. -/
def sqlForFilterSearchCompanies (searchData : Payload) :
    Except JError SqlStatement :=
  if searchData.length = 0 then
    .error (.badRequestError "No data")
  else do
    let r ← companiesFilterLoop searchData 1
    .ok ⟨companiesSelectSkeleton (String.intercalate " AND " r.whereQueries),
         r.searchValues⟩

/-- Company.filter (src/models/company.js lines 151-167), modelled up to
query execution: the guard `minEmployees && maxEmployees && maxEmployees <
minEmployees` throws BadRequestError before the builder runs, otherwise the
built statement is what db.query would receive.  Note the guard tests JS
truthiness of the two bounds, not their presence. -/
def filter (searchParams : Payload) : Except JError SqlStatement :=
  let minEmployees := searchParams.lookup "minEmployees"
  let maxEmployees := searchParams.lookup "maxEmployees"
  if optTruthy minEmployees && optTruthy maxEmployees
      && optLt maxEmployees minEmployees then
    .error (.badRequestError
      "maxEmployees search parameter must be greater than minEmployees")
  else
    sqlForFilterSearchCompanies searchParams

/-- The fixed UPDATE skeleton of Company.update, parameterized by the SET
clause and the placeholder for the handle. -/
def updateSkeleton (setCols handleVarIdx : String) : String :=
  "\n      UPDATE companies\n      SET " ++ setCols ++ "\n        WHERE handle = " ++ handleVarIdx ++ "\n        RETURNING handle, name, description, num_employees AS \"numEmployees\", logo_url AS \"logoUrl\""

/-- Company.update (src/models/company.js lines 107-127), modelled up to
query execution.  The source performs no identity-field check: the payload
goes straight to sqlForPartialUpdate with the numEmployees/logoUrl
translation map, and the handle is appended as the last bound value. -/
def update (handle : String) (data : Payload) : Except JError SqlStatement := do
  let r ← sqlForPartialUpdate data
      [("numEmployees", "num_employees"), ("logoUrl", "logo_url")]
  let handleVarIdx := "$" ++ toString (r.values.length + 1)
  .ok ⟨updateSkeleton r.setCols handleVarIdx, r.values ++ [JsVal.str handle]⟩

end Company

/-- One iteration of the job filter loop (src/models/job.js lines 244-258).
A hasEquity key pushes `equity > $idx` with bound value 0 only when its
value is the literal string "true"; any other hasEquity value pushes
nothing at all (but the caller still advances idx, exactly as the source
increments idx unconditionally at the end of each iteration). -/
def jobKeyStep (key : String) (v : JsVal) (idx : Nat) :
    Except JError (List String × List JsVal) :=
  if key = "title" then
    .ok (["title ILIKE $" ++ toString idx], [JsVal.str ("%" ++ jsToString v ++ "%")])
  else if key = "minSalary" then
    .ok (["salary >= $" ++ toString idx], [jsPlus v])
  else if key = "hasEquity" then
    if v = JsVal.str "true" then
      .ok (["equity > $" ++ toString idx], [JsVal.num 0])
    else
      .ok ([], [])
  else
    .error (.badRequestError ("Bad Key: " ++ key))

/-- The job filter loop: iterates the payload in insertion order.  idx is
incremented once per key even when the hasEquity branch pushed nothing. -/
def jobsFilterLoop : Payload → Nat → Except JError FilterSql
  | [], _ => .ok ⟨[], []⟩
  | (key, v) :: rest, idx => do
    let s ← jobKeyStep key v idx
    let r ← jobsFilterLoop rest (idx + 1)
    .ok ⟨s.1 ++ r.whereQueries, s.2 ++ r.searchValues⟩

/-- The fixed SELECT-with-JOIN skeleton of Job._sqlForFilterSearchJobs,
parameterized by the joined WHERE fragment. -/
def jobsSelectSkeleton (w : String) : String :=
  "\n      SELECT \n        id,\n        title,\n        salary,\n        equity,\n        company_handle AS \"companyHandle\",\n        c.name As \"companyName\"\n      FROM jobs\n      JOIN companies AS c on company_handle=c.handle\n      WHERE " ++ w ++ "\n      ORDER BY c.name"

namespace Job

/-- Job._sqlForFilterSearchJobs (src/models/job.js lines 229-272): throws
BadRequestError("No data") on an empty payload, otherwise runs the loop
starting at placeholder 1 and wraps the joined fragments in the
SELECT-with-JOIN skeleton. -/
def sqlForFilterSearchJobs (searchData : Payload) :
    Except JError SqlStatement :=
  if searchData.length = 0 then
    .error (.badRequestError "No data")
  else do
    let r ← jobsFilterLoop searchData 1
    .ok ⟨jobsSelectSkeleton (String.intercalate " AND " r.whereQueries),
         r.searchValues⟩

/-- The fixed UPDATE skeleton of Job.update, parameterized by the SET
clause and the placeholder for the id. -/
def updateSkeleton (setCols idVarIdx : String) : String :=
  "\n      UPDATE jobs\n      SET " ++ setCols ++ "\n        WHERE id = " ++ idVarIdx ++ "\n        RETURNING id, title, salary, equity, company_handle AS \"companyHandle\""

/-- Job.update (src/models/job.js lines 130-160), modelled up to query
execution: rejects a payload holding id or companyHandle before invoking
sqlForPartialUpdate, then appends the id as the last bound value. -/
def update (id : Int) (data : Payload) : Except JError SqlStatement :=
  if (data.lookup "id").isSome then
    .error (.badRequestError "You cannot change the ID of a job.")
  else if (data.lookup "companyHandle").isSome then
    .error (.badRequestError "You cannot change the company of a job.")
  else do
    let r ← sqlForPartialUpdate data [("companyHandle", "company_handle")]
    let idVarIdx := "$" ++ toString (r.values.length + 1)
    .ok ⟨updateSkeleton r.setCols idVarIdx, r.values ++ [JsVal.num id]⟩

end Job

/-! ## Job rows and record projections (for Job.get / Job.create) -/

/-- A row of the jobs table. -/
structure JobRow where
  id : Int
  title : String
  salary : JsVal
  equity : JsVal
  companyHandle : String
deriving DecidableEq

/-- The jobs table contents. -/
abbrev JobStore := List JobRow

/-- A result record as returned by pg: column label paired with value, in
the order of the SELECT or RETURNING list. -/
abbrev Record := List (String × JsVal)

namespace Job

/-- Job.get (src/models/job.js lines 101-116): SELECT title, salary,
equity, company_handle AS companyHandle FROM jobs WHERE id=$1, taking
rows[0]; throws NotFoundError when no row matches.  The SELECT list does
not include id, so the returned record carries exactly these four labels. -/
def get (store : JobStore) (id : Int) : Except JError Record :=
  match store.find? (fun r => r.id == id) with
  | some r =>
    .ok [("title", JsVal.str r.title), ("salary", r.salary),
         ("equity", r.equity), ("companyHandle", JsVal.str r.companyHandle)]
  | none => .error (.notFoundError ("No jobs with ID: " ++ toString id))

/-- Job.create (src/models/job.js lines 29-48): duplicate check on the
(companyHandle, title) pair, then INSERT RETURNING id, title, salary,
equity, company_handle AS companyHandle.  newId models the store-assigned
serial id of the inserted row. -/
def create (store : JobStore) (newId : Int) (title : String)
    (salary equity : JsVal) (companyHandle : String) :
    Except JError (Record × JobStore) :=
  if store.any (fun r => r.companyHandle == companyHandle && r.title == title) then
    .error (.badRequestError ("Duplicate job: " ++ title ++ " at " ++ companyHandle))
  else
    .ok ([("id", JsVal.num newId), ("title", JsVal.str title),
          ("salary", salary), ("equity", equity),
          ("companyHandle", JsVal.str companyHandle)],
         store ++ [⟨newId, title, salary, equity, companyHandle⟩])

/-- The record produced for a row by the RETURNING list of the UPDATE in
Job.update: id, title, salary, equity, company_handle AS companyHandle. -/
def updateReturningRecord (r : JobRow) : Record :=
  [("id", JsVal.num r.id), ("title", JsVal.str r.title),
   ("salary", r.salary), ("equity", r.equity),
   ("companyHandle", JsVal.str r.companyHandle)]

end Job

/-! ## General lemmas about the builders -/

/-- Bind on a successful Except computation runs the continuation. -/
lemma bindOk {α β : Type} (a : α) (f : α → Except JError β) :
    (Except.ok a >>= f : Except JError β) = f a := rfl

/-- Bind on a failed Except computation propagates the error. -/
lemma bindError {α β : Type} (e : JError) (f : α → Except JError β) :
    (Except.error e >>= f : Except JError β) = Except.error e := rfl

/-- Every key of the company allow-list makes companyKeyStep succeed. -/
lemma companyKeyStep_mem_ok (k : String) (v : JsVal) (idx : Nat)
    (hk : k ∈ companyFilterKeys) : ∃ s, companyKeyStep k v idx = Except.ok s := by
  have hk2 : k = "nameLike" ∨ k = "minEmployees" ∨ k = "maxEmployees" := by
    simpa [companyFilterKeys] using hk
  rcases hk2 with rfl | rfl | rfl
  · exact ⟨(["name ILIKE $" ++ toString idx], [JsVal.str ("%" ++ jsToString v ++ "%")]),
      by simp [companyKeyStep]⟩
  · exact ⟨(["num_employees >= $" ++ toString idx], [jsPlus v]), by simp [companyKeyStep]⟩
  · exact ⟨(["num_employees <= $" ++ toString idx], [jsPlus v]), by simp [companyKeyStep]⟩

/-- Every key outside the company allow-list makes companyKeyStep throw a
BadRequestError naming it. -/
lemma companyKeyStep_not_mem (k : String) (v : JsVal) (idx : Nat)
    (hk : k ∉ companyFilterKeys) :
    companyKeyStep k v idx = Except.error (.badRequestError ("Bad Key: " ++ k)) := by
  have hk2 : ¬(k = "nameLike" ∨ k = "minEmployees" ∨ k = "maxEmployees") := by
    simpa [companyFilterKeys] using hk
  push_neg at hk2
  obtain ⟨h1, h2, h3⟩ := hk2
  simp [companyKeyStep, h1, h2, h3]

/-- Every key of the job allow-list makes jobKeyStep succeed. -/
lemma jobKeyStep_mem_ok (k : String) (v : JsVal) (idx : Nat)
    (hk : k ∈ jobFilterKeys) : ∃ s, jobKeyStep k v idx = Except.ok s := by
  have hk2 : k = "title" ∨ k = "minSalary" ∨ k = "hasEquity" := by
    simpa [jobFilterKeys] using hk
  rcases hk2 with rfl | rfl | rfl
  · exact ⟨(["title ILIKE $" ++ toString idx], [JsVal.str ("%" ++ jsToString v ++ "%")]),
      by simp [jobKeyStep]⟩
  · exact ⟨(["salary >= $" ++ toString idx], [jsPlus v]), by simp [jobKeyStep]⟩
  · by_cases hv : v = JsVal.str "true"
    · exact ⟨(["equity > $" ++ toString idx], [JsVal.num 0]), by simp [jobKeyStep, hv]⟩
    · exact ⟨([], []), by simp [jobKeyStep, hv]⟩

/-- Every key outside the job allow-list makes jobKeyStep throw a
BadRequestError naming it. -/
lemma jobKeyStep_not_mem (k : String) (v : JsVal) (idx : Nat)
    (hk : k ∉ jobFilterKeys) :
    jobKeyStep k v idx = Except.error (.badRequestError ("Bad Key: " ++ k)) := by
  have hk2 : ¬(k = "title" ∨ k = "minSalary" ∨ k = "hasEquity") := by
    simpa [jobFilterKeys] using hk
  push_neg at hk2
  obtain ⟨h1, h2, h3⟩ := hk2
  simp [jobKeyStep, h1, h2, h3]

/-- A payload holding a key outside the company allow-list makes the
company filter loop throw a BadRequestError naming such a key. -/
lemma companiesFilterLoop_badKey (p : Payload) (idx : Nat)
    (h : ∃ k ∈ p.map Prod.fst, k ∉ companyFilterKeys) :
    ∃ bad ∈ p.map Prod.fst, bad ∉ companyFilterKeys ∧
      companiesFilterLoop p idx
        = Except.error (.badRequestError ("Bad Key: " ++ bad)) := by
  induction p generalizing idx with
  | nil => simp at h
  | cons hd rest ih =>
    obtain ⟨key, v⟩ := hd
    by_cases hk : key ∈ companyFilterKeys
    · obtain ⟨k, hkmem, hknot⟩ := h
      have hkr : ∃ k ∈ rest.map Prod.fst, k ∉ companyFilterKeys := by
        rcases (by simpa using hkmem : k = key ∨ k ∈ rest.map Prod.fst) with rfl | hmem
        · exact absurd hk hknot
        · exact ⟨k, hmem, hknot⟩
      obtain ⟨bad, hbmem, hbnot, hloop⟩ := ih (idx + 1) hkr
      obtain ⟨s, hs⟩ := companyKeyStep_mem_ok key v idx hk
      refine ⟨bad, by simp [hbmem], hbnot, ?_⟩
      simp [companiesFilterLoop, hs, hloop, bindOk, bindError]
    · exact ⟨key, by simp, hk,
        by simp [companiesFilterLoop, companyKeyStep_not_mem key v idx hk, bindOk, bindError]⟩

/-- A payload holding a key outside the job allow-list makes the job filter
loop throw a BadRequestError naming such a key. -/
lemma jobsFilterLoop_badKey (p : Payload) (idx : Nat)
    (h : ∃ k ∈ p.map Prod.fst, k ∉ jobFilterKeys) :
    ∃ bad ∈ p.map Prod.fst, bad ∉ jobFilterKeys ∧
      jobsFilterLoop p idx
        = Except.error (.badRequestError ("Bad Key: " ++ bad)) := by
  induction p generalizing idx with
  | nil => simp at h
  | cons hd rest ih =>
    obtain ⟨key, v⟩ := hd
    by_cases hk : key ∈ jobFilterKeys
    · obtain ⟨k, hkmem, hknot⟩ := h
      have hkr : ∃ k ∈ rest.map Prod.fst, k ∉ jobFilterKeys := by
        rcases (by simpa using hkmem : k = key ∨ k ∈ rest.map Prod.fst) with rfl | hmem
        · exact absurd hk hknot
        · exact ⟨k, hmem, hknot⟩
      obtain ⟨bad, hbmem, hbnot, hloop⟩ := ih (idx + 1) hkr
      obtain ⟨s, hs⟩ := jobKeyStep_mem_ok key v idx hk
      refine ⟨bad, by simp [hbmem], hbnot, ?_⟩
      simp [jobsFilterLoop, hs, hloop, bindOk, bindError]
    · exact ⟨key, by simp, hk,
        by simp [jobsFilterLoop, jobKeyStep_not_mem key v idx hk, bindOk, bindError]⟩

/-! ## Claims -/

/-- Claim C1, counterexample.  The claim states that the fragment for a key
uses the column name T[key] whenever the key is in the translation map T.
The source line is jsToSql[colName] || colName, so a key present in T with
the empty string as column name falls back to the key itself: on the
payload holding key a and the translation map sending a to the empty
string, the source builder yields the fragment for column a while the
claim-worded builder yields the fragment for the empty column name. -/
theorem C1_counterexample :
    sqlForPartialUpdate [("a", JsVal.num 1)] [("a", "")]
      = Except.ok ⟨"\"a\"=$1", [JsVal.num 1]⟩
    ∧ specSqlForPartialUpdate [("a", JsVal.num 1)] [("a", "")]
      = Except.ok ⟨"\"\"=$1", [JsVal.num 1]⟩
    ∧ sqlForPartialUpdate [("a", JsVal.num 1)] [("a", "")]
      ≠ specSqlForPartialUpdate [("a", JsVal.num 1)] [("a", "")] := by
  refine ⟨by decide, by decide, by decide⟩

/-- Claim C1 as amended: for every non-empty update payload P and every
translation map T, the builder returns exactly len(P) assignment fragments
joined with a comma in the iteration order of P, the fragment for the i-th
key quoting the column chosen by colFor (the translation T[key] when the
key is in T with a non-empty column name, the key itself otherwise) with
positional placeholder i+1, and the value list holds the raw input values
of P in the same order with no coercion. -/
theorem C1_amended (P : Payload) (T : TransMap) (h : P ≠ []) :
    sqlForPartialUpdate P T
      = Except.ok ⟨String.intercalate ", " (updateCols P T), P.map Prod.snd⟩
    ∧ (updateCols P T).length = P.length
    ∧ (P.map Prod.snd).length = P.length
    ∧ ∀ i, i < P.length →
        ∃ k, (P.map Prod.fst)[i]? = some k ∧
          (updateCols P T)[i]?
            = some ("\"" ++ colFor T k ++ "\"=$" ++ toString (i + 1)) := by
  have hne : P.length ≠ 0 := by
    intro h0
    rw [List.length_eq_zero] at h0
    exact h h0
  refine ⟨by simp [sqlForPartialUpdate, hne], by simp [updateCols], by simp, ?_⟩
  intro i hi
  have hi2 : i < (P.map Prod.fst).length := by simpa using hi
  refine ⟨(P.map Prod.fst)[i], List.getElem?_eq_getElem hi2, ?_⟩
  simp [updateCols, List.getElem?_map, List.getElem?_enum, List.getElem?_eq_getElem hi2]

/-- Witness for C1_amended at a concrete one-field payload. -/
theorem C1_amended_witness :
    sqlForPartialUpdate [("firstName", JsVal.str "John")] [("firstName", "first_name")]
      = Except.ok ⟨String.intercalate ", "
          (updateCols [("firstName", JsVal.str "John")] [("firstName", "first_name")]),
          [("firstName", JsVal.str "John")].map Prod.snd⟩ :=
  (C1_amended [("firstName", JsVal.str "John")] [("firstName", "first_name")]
    (by decide)).1

/-- Claim C2.  The claim states that placeholders are numbered
consecutively 1..N where N is the length of the value list, in particular
when a hasEquity key whose value is not the string true precedes other
keys.  The source increments idx unconditionally, also in the hasEquity
branch that pushes nothing, so on the payload with hasEquity (string
false) followed by minSalary the loop emits the single fragment salary >=
dollar-2 over a value list of length one: the only placeholder is 2, not
1. -/
theorem C2_eval :
    jobsFilterLoop [("hasEquity", JsVal.str "false"), ("minSalary", JsVal.num 100)] 1
      = Except.ok ⟨["salary >= $2"], [JsVal.num 100]⟩
    ∧ ("salary >= $2" : String) ≠ "salary >= $1" := by
  refine ⟨by decide, by decide⟩

/-- Claim C3, confirmed: in the job filter loop a hasEquity entry whose
value is the literal string true prepends the predicate equity > idx with
bound value 0 and advances the loop, while a hasEquity entry with any
other value leaves the loop result exactly as if the entry were skipped
(no predicate, no value). -/
theorem C3_hasEquity (v : JsVal) (rest : Payload) (idx : Nat) :
    jobsFilterLoop (("hasEquity", JsVal.str "true") :: rest) idx
      = (jobsFilterLoop rest (idx + 1)).map
          (fun r => ⟨("equity > $" ++ toString idx) :: r.whereQueries,
                     JsVal.num 0 :: r.searchValues⟩)
    ∧ (v ≠ JsVal.str "true" →
        jobsFilterLoop (("hasEquity", v) :: rest) idx = jobsFilterLoop rest (idx + 1)) := by
  constructor
  · have hs : jobKeyStep "hasEquity" (JsVal.str "true") idx
        = Except.ok (["equity > $" ++ toString idx], [JsVal.num 0]) := by
      simp [jobKeyStep]
    cases hr : jobsFilterLoop rest (idx + 1) with
    | ok r => simp [jobsFilterLoop, hs, hr, Except.map, bindOk, bindError]
    | error e => simp [jobsFilterLoop, hs, hr, Except.map, bindOk, bindError]
  · intro hv
    have hs : jobKeyStep "hasEquity" v idx = Except.ok ([], []) := by
      simp [jobKeyStep, hv]
    cases hr : jobsFilterLoop rest (idx + 1) with
    | ok r => simp [jobsFilterLoop, hs, hr, bindOk, bindError]
    | error e => simp [jobsFilterLoop, hs, hr, bindOk, bindError]

/-- Witness for C3_hasEquity with the boolean false as the other value. -/
theorem C3_hasEquity_witness :
    jobsFilterLoop [("hasEquity", JsVal.str "true")] 1
      = (jobsFilterLoop [] 2).map
          (fun r => ⟨("equity > $" ++ toString 1) :: r.whereQueries,
                     JsVal.num 0 :: r.searchValues⟩)
    ∧ jobsFilterLoop [("hasEquity", JsVal.bool false)] 1 = jobsFilterLoop [] 2 :=
  ⟨(C3_hasEquity (JsVal.bool false) [] 1).1,
   (C3_hasEquity (JsVal.bool false) [] 1).2 (by decide)⟩

/-- Claim C4, counterexample.  The claim states that a jobs filter payload
whose only key is hasEquity with the string value false causes a
validation error before any query is executed.  The builder succeeds on
that payload, so no error of any kind is thrown before execution. -/
theorem C4_counterexample :
    exceptIsOk (Job.sqlForFilterSearchJobs [("hasEquity", JsVal.str "false")]) = true := by
  decide

set_option maxRecDepth 8000 in
/-- Claim C4 as amended: a jobs filter payload whose only key is hasEquity
with the string value false is not rejected; the builder returns zero
predicates and an empty value list, producing a query whose WHERE clause
is empty. -/
theorem C4_amended :
    jobsFilterLoop [("hasEquity", JsVal.str "false")] 1 = Except.ok ⟨[], []⟩
    ∧ Job.sqlForFilterSearchJobs [("hasEquity", JsVal.str "false")]
        = Except.ok ⟨jobsSelectSkeleton "", []⟩ := by
  refine ⟨by decide, by decide⟩

set_option maxRecDepth 8000 in
/-- Claim C5.  The claim states that whenever both minEmployees and
maxEmployees are present with maxEmployees < minEmployees, including when
one of them is 0, Company.filter fails with a validation error before the
builder runs.  The guard tests JS truthiness, so a bound equal to 0 is
treated as absent: with minEmployees 5 and maxEmployees 0 the check is
skipped and the statement is built and handed to the store, although the
guard does fire on the all-nonzero pair 10 and 5. -/
theorem C5_eval :
    jsLt (JsVal.num 0) (JsVal.num 5) = true
    ∧ Company.filter [("minEmployees", JsVal.num 5), ("maxEmployees", JsVal.num 0)]
        = Except.ok ⟨companiesSelectSkeleton
            "num_employees >= $1 AND num_employees <= $2",
            [JsVal.num 5, JsVal.num 0]⟩
    ∧ Company.filter [("minEmployees", JsVal.num 10), ("maxEmployees", JsVal.num 5)]
        = Except.error (JError.badRequestError
            "maxEmployees search parameter must be greater than minEmployees") := by
  refine ⟨by decide, by decide, by decide⟩

set_option maxRecDepth 8000 in
/-- Claim C6, counterexample.  The claim states that every repository
update payload holding an identity field is rejected before the Partial
Update Builder runs; Company.update performs no such check, so a payload
holding the handle key reaches the builder and yields an UPDATE statement
that sets the handle column. -/
theorem C6_counterexample :
    Company.update "c1" [("handle", JsVal.str "newHandle")]
      = Except.ok ⟨Company.updateSkeleton "\"handle\"=$1" "$2",
          [JsVal.str "newHandle", JsVal.str "c1"]⟩ := by
  decide

/-- Claim C6 as amended: Job.update rejects every payload holding id or
companyHandle with a BadRequestError before invoking the Partial Update
Builder, while Company.update performs no identity-field check at all
(see the counterexample). -/
theorem C6_amended (id : Int) (data : Payload)
    (h : (data.lookup "id").isSome = true
       ∨ (data.lookup "companyHandle").isSome = true) :
    ∃ msg, Job.update id data = Except.error (JError.badRequestError msg) := by
  by_cases h1 : (data.lookup "id").isSome = true
  · exact ⟨"You cannot change the ID of a job.", by simp [Job.update, h1]⟩
  · have h2 : (data.lookup "companyHandle").isSome = true := h.resolve_left h1
    exact ⟨"You cannot change the company of a job.", by simp [Job.update, h1, h2]⟩

/-- Witness for C6_amended at a payload holding the id key. -/
theorem C6_amended_witness :
    ((([("id", JsVal.num 10)] : Payload).lookup "id").isSome = true
      ∨ (([("id", JsVal.num 10)] : Payload).lookup "companyHandle").isSome = true)
    ∧ ∃ msg, Job.update 7 [("id", JsVal.num 10)]
        = Except.error (JError.badRequestError msg) :=
  ⟨Or.inl (by decide), C6_amended 7 [("id", JsVal.num 10)] (Or.inl (by decide))⟩

set_option maxRecDepth 8000 in
/-- Claim C7, confirmed: on the company filter payload with keys in the
order nameLike net, maxEmployees 500, minEmployees 5, the builder produces
the three WHERE fragments name ILIKE dollar-1, num_employees <= dollar-2,
num_employees >= dollar-3 joined with AND, and the value list percent-net-
percent, 500, 5 with the numeric bounds coerced to integers. -/
theorem C7_concrete :
    companiesFilterLoop
      [("nameLike", JsVal.str "net"), ("maxEmployees", JsVal.num 500),
       ("minEmployees", JsVal.num 5)] 1
      = Except.ok ⟨["name ILIKE $1", "num_employees <= $2", "num_employees >= $3"],
          [JsVal.str "%net%", JsVal.num 500, JsVal.num 5]⟩
    ∧ String.intercalate " AND "
        ["name ILIKE $1", "num_employees <= $2", "num_employees >= $3"]
      = "name ILIKE $1 AND num_employees <= $2 AND num_employees >= $3"
    ∧ Company.sqlForFilterSearchCompanies
        [("nameLike", JsVal.str "net"), ("maxEmployees", JsVal.num 500),
         ("minEmployees", JsVal.num 5)]
      = Except.ok ⟨companiesSelectSkeleton
          "name ILIKE $1 AND num_employees <= $2 AND num_employees >= $3",
          [JsVal.str "%net%", JsVal.num 500, JsVal.num 5]⟩ := by
  refine ⟨by decide, by decide, by decide⟩

/-- Claim C8, confirmed: every filter payload holding a key outside the
allow-list of its entity makes the corresponding builder fail with a
BadRequestError whose message names an offending payload key, regardless
of the value attached to it. -/
theorem C8_badKey (pc pj : Payload)
    (hc : ∃ k ∈ pc.map Prod.fst, k ∉ companyFilterKeys)
    (hj : ∃ k ∈ pj.map Prod.fst, k ∉ jobFilterKeys) :
    (∃ bad ∈ pc.map Prod.fst, bad ∉ companyFilterKeys ∧
       Company.sqlForFilterSearchCompanies pc
         = Except.error (.badRequestError ("Bad Key: " ++ bad)))
    ∧ (∃ bad ∈ pj.map Prod.fst, bad ∉ jobFilterKeys ∧
       Job.sqlForFilterSearchJobs pj
         = Except.error (.badRequestError ("Bad Key: " ++ bad))) := by
  constructor
  · obtain ⟨bad, hm, hn, hl⟩ := companiesFilterLoop_badKey pc 1 hc
    have hne : pc.length ≠ 0 := by
      intro h0
      rw [List.length_eq_zero] at h0
      subst h0
      simp at hm
    exact ⟨bad, hm, hn,
      by simp [Company.sqlForFilterSearchCompanies, hne, hl, bindOk, bindError]⟩
  · obtain ⟨bad, hm, hn, hl⟩ := jobsFilterLoop_badKey pj 1 hj
    have hne : pj.length ≠ 0 := by
      intro h0
      rw [List.length_eq_zero] at h0
      subst h0
      simp at hm
    exact ⟨bad, hm, hn,
      by simp [Job.sqlForFilterSearchJobs, hne, hl, bindOk, bindError]⟩

/-- Witness for C8_badKey at one-key payloads with disallowed keys. -/
theorem C8_badKey_witness :
    (∃ k ∈ ([("bogus", JsVal.num 1)] : Payload).map Prod.fst, k ∉ companyFilterKeys)
    ∧ (∃ k ∈ ([("wat", JsVal.null)] : Payload).map Prod.fst, k ∉ jobFilterKeys)
    ∧ ((∃ bad ∈ ([("bogus", JsVal.num 1)] : Payload).map Prod.fst,
          bad ∉ companyFilterKeys ∧
          Company.sqlForFilterSearchCompanies [("bogus", JsVal.num 1)]
            = Except.error (.badRequestError ("Bad Key: " ++ bad)))
       ∧ (∃ bad ∈ ([("wat", JsVal.null)] : Payload).map Prod.fst,
          bad ∉ jobFilterKeys ∧
          Job.sqlForFilterSearchJobs [("wat", JsVal.null)]
            = Except.error (.badRequestError ("Bad Key: " ++ bad)))) :=
  ⟨by decide, by decide,
   C8_badKey [("bogus", JsVal.num 1)] [("wat", JsVal.null)] (by decide) (by decide)⟩

/-- Claim C9, confirmed: an empty input mapping makes all three builders
fail with the BadRequestError No data before producing any SQL, for every
translation map in the partial-update case. -/
theorem C9_empty (T : TransMap) :
    sqlForPartialUpdate [] T = Except.error (JError.badRequestError "No data")
    ∧ Company.sqlForFilterSearchCompanies []
        = Except.error (JError.badRequestError "No data")
    ∧ Job.sqlForFilterSearchJobs []
        = Except.error (JError.badRequestError "No data") :=
  ⟨rfl, rfl, rfl⟩

/-- Claim C10, confirmed: a successful Job.get returns a record whose
labels are exactly title, salary, equity, companyHandle and never id,
while the records returned by Job.create and by the RETURNING list of
Job.update do carry the id label. -/
theorem C10_fields :
    (∀ (store : JobStore) (i : Int) (rec : Record),
        Job.get store i = Except.ok rec →
        rec.map Prod.fst = ["title", "salary", "equity", "companyHandle"]
        ∧ "id" ∉ rec.map Prod.fst)
    ∧ (∀ (store : JobStore) (newId : Int) (t : String) (s e : JsVal)
         (ch : String) (rec : Record) (store2 : JobStore),
        Job.create store newId t s e ch = Except.ok (rec, store2) →
        "id" ∈ rec.map Prod.fst)
    ∧ (∀ row : JobRow, "id" ∈ (Job.updateReturningRecord row).map Prod.fst) := by
  refine ⟨?_, ?_, ?_⟩
  · intro store i rec h
    cases hf : store.find? (fun r => r.id == i) with
    | some r =>
      rw [Job.get, hf] at h
      obtain rfl : _ = rec := Except.ok.inj h
      refine ⟨by simp, by simp⟩
    | none =>
      rw [Job.get, hf] at h
      exact absurd h (by simp)
  · intro store newId t s e ch rec store2 h
    rw [Job.create] at h
    by_cases hd : store.any (fun r => r.companyHandle == ch && r.title == t)
    · rw [if_pos hd] at h
      exact absurd h (by simp)
    · rw [if_neg hd] at h
      obtain ⟨h1, h2⟩ := Prod.mk.inj (Except.ok.inj h)
      rw [← h1]
      simp
  · intro row
    simp [Job.updateReturningRecord]

/-- Witness for C10_fields on a one-row store. -/
theorem C10_fields_witness :
    Job.get [⟨1, "eng", JsVal.num 100, JsVal.null, "c1"⟩] 1
      = Except.ok [("title", JsVal.str "eng"), ("salary", JsVal.num 100),
          ("equity", JsVal.null), ("companyHandle", JsVal.str "c1")]
    ∧ ([("title", JsVal.str "eng"), ("salary", JsVal.num 100),
        ("equity", JsVal.null), ("companyHandle", JsVal.str "c1")] : Record).map Prod.fst
        = ["title", "salary", "equity", "companyHandle"]
    ∧ "id" ∉ ([("title", JsVal.str "eng"), ("salary", JsVal.num 100),
        ("equity", JsVal.null), ("companyHandle", JsVal.str "c1")] : Record).map Prod.fst :=
  ⟨by decide,
   (C10_fields.1 [⟨1, "eng", JsVal.num 100, JsVal.null, "c1"⟩] 1 _ (by decide)).1,
   (C10_fields.1 [⟨1, "eng", JsVal.num 100, JsVal.null, "c1"⟩] 1 _ (by decide)).2⟩

end Jobly
